import Mathlib

/-!
Shallow embedding of the greptimedb-ingester-rust client core: the typed
`Value`/`Row` model with checked and unchecked accessors (src/src/table.rs),
the `LogTableDataProvider` row generators and their two iterator capabilities
(src/examples/bench/log_table_data_provider.rs), and the batched submission
loop of `BulkApiBenchmarkRunner::run_benchmark`
(src/examples/bench/benchmark_runner.rs).

Machine integers are embedded as `Int`/`Nat` (the accessors only move values,
never compute with them); float payloads are carried as uninterpreted IEEE bit
patterns (`Nat`); binary payloads are `List UInt8`.  The Rust
`cfg!(debug_assertions)` build configuration is an explicit `debug : Bool`
parameter, and a panic is the `GetResult.panicWith` outcome carrying exactly
the data interpolated into the Rust panic message (index, expected type name,
actual stored value).
-/

namespace Greptime

/-- Tagged union of every supported primitive, embedded from `enum Value` in
src/src/table.rs.  Payload carriers: signed integers as `Int`, unsigned as
`Nat`, float bit patterns as `Nat` (uninterpreted), binary as `List UInt8`. -/
inductive Value where
  | Boolean (v : Bool)
  | Int8 (v : Int)
  | Int16 (v : Int)
  | Int32 (v : Int)
  | Int64 (v : Int)
  | Uint8 (v : Nat)
  | Uint16 (v : Nat)
  | Uint32 (v : Nat)
  | Uint64 (v : Nat)
  | Float32 (v : Nat)
  | Float64 (v : Nat)
  | Binary (v : List UInt8)
  | String (v : String)
  | Date (v : Int)
  | Datetime (v : Int)
  | TimestampSecond (v : Int)
  | TimestampMillisecond (v : Int)
  | TimestampMicrosecond (v : Int)
  | TimestampNanosecond (v : Int)
  | TimeSecond (v : Int)
  | TimeMillisecond (v : Int)
  | TimeMicrosecond (v : Int)
  | TimeNanosecond (v : Int)
  | Decimal128 (v : Int)
  | Json (v : String)
  | Null
deriving DecidableEq, Repr

namespace Value

/-- The stored case is the boolean case. -/
def isBooleanCase : Value → Bool
  | Value.Boolean _ => true
  | _ => false

/-- The stored case is the i8 case. -/
def isInt8Case : Value → Bool
  | Value.Int8 _ => true
  | _ => false

/-- The stored case is the i16 case. -/
def isInt16Case : Value → Bool
  | Value.Int16 _ => true
  | _ => false

/-- The stored case is the i32 case. -/
def isInt32Case : Value → Bool
  | Value.Int32 _ => true
  | _ => false

/-- The stored case is the i64 case. -/
def isInt64Case : Value → Bool
  | Value.Int64 _ => true
  | _ => false

/-- The stored case is the u8 case. -/
def isUint8Case : Value → Bool
  | Value.Uint8 _ => true
  | _ => false

/-- The stored case is the u16 case. -/
def isUint16Case : Value → Bool
  | Value.Uint16 _ => true
  | _ => false

/-- The stored case is the u32 case. -/
def isUint32Case : Value → Bool
  | Value.Uint32 _ => true
  | _ => false

/-- The stored case is the u64 case. -/
def isUint64Case : Value → Bool
  | Value.Uint64 _ => true
  | _ => false

/-- The stored case is the f32 case. -/
def isFloat32Case : Value → Bool
  | Value.Float32 _ => true
  | _ => false

/-- The stored case is the f64 case. -/
def isFloat64Case : Value → Bool
  | Value.Float64 _ => true
  | _ => false

/-- The stored case is accepted by binary access: the binary case itself or
the text case (viewed as UTF-8 bytes). -/
def isBinaryViewCase : Value → Bool
  | Value.Binary _ => true
  | Value.String _ => true
  | _ => false

/-- The stored case is the text case. -/
def isStringCase : Value → Bool
  | Value.String _ => true
  | _ => false

/-- The stored case is the date case. -/
def isDateCase : Value → Bool
  | Value.Date _ => true
  | _ => false

/-- The stored case is the datetime case. -/
def isDatetimeCase : Value → Bool
  | Value.Datetime _ => true
  | _ => false

/-- The stored case is one of the four timestamp resolutions. -/
def isTimestampCase : Value → Bool
  | Value.TimestampSecond _ => true
  | Value.TimestampMillisecond _ => true
  | Value.TimestampMicrosecond _ => true
  | Value.TimestampNanosecond _ => true
  | _ => false

/-- The stored case is one of the two 32-bit time-of-day resolutions. -/
def isTime32Case : Value → Bool
  | Value.TimeSecond _ => true
  | Value.TimeMillisecond _ => true
  | _ => false

/-- The stored case is one of the two 64-bit time-of-day resolutions. -/
def isTime64Case : Value → Bool
  | Value.TimeMicrosecond _ => true
  | Value.TimeNanosecond _ => true
  | _ => false

/-- The stored case is the decimal128 case. -/
def isDecimal128Case : Value → Bool
  | Value.Decimal128 _ => true
  | _ => false

end Value

/-- Outcome of a typed accessor call: either a normal return (`ok`) of an
optional payload, or a Rust panic (`panicWith`) carrying the index, the
expected type name and the actual stored case — exactly the three data
interpolated into the panic message of `handle_type_mismatch`. -/
inductive GetResult (α : Type) where
  | ok (val : Option α)
  | panicWith (index : Nat) (expected : String) (actual : Value)
deriving DecidableEq, Repr

/-- Embedding of `handle_type_mismatch` (src/src/table.rs:617-622):
`cfg!(debug_assertions)` is the explicit `debug` flag; the debug branch
panics with the index, expected type and actual value, the release branch
returns `None`. -/
def handle_type_mismatch {α : Type} (debug : Bool) (index : Nat)
    (expected : String) (actual : Value) : GetResult α :=
  if debug then GetResult.panicWith index expected actual else GetResult.ok none

/-- UTF-8 byte sequence of a string, as produced by Rust's
`str::as_bytes` / `String::into_bytes`. -/
def strBytes (s : String) : List UInt8 :=
  s.toUTF8.toList

/-- Embedding of `struct Row` (src/src/table.rs): an ordered sequence of
values. -/
structure Row where
  values : List Value
deriving DecidableEq, Repr

namespace Row

/-- Embedding of `Row::len`. -/
def len (r : Row) : Nat := r.values.length

/-- Embedding of `Row::get_bool` (src/src/table.rs:184-190). -/
def get_bool (debug : Bool) (r : Row) (index : Nat) : GetResult Bool :=
  match r.values[index]? with
  | none => GetResult.ok none
  | some (Value.Boolean v) => GetResult.ok (some v)
  | some Value.Null => GetResult.ok none
  | some other => handle_type_mismatch debug index "boolean" other

/-- Embedding of `Row::get_bool_unchecked`: the caller guarantees the index
is in range, so the in-range proof replaces Rust's undefined behavior. -/
def get_bool_unchecked (debug : Bool) (r : Row) (index : Nat)
    (h : index < r.values.length) : GetResult Bool :=
  match r.values[index] with
  | Value.Boolean v => GetResult.ok (some v)
  | Value.Null => GetResult.ok none
  | other => handle_type_mismatch debug index "boolean" other

/-- Embedding of `Row::get_i8`. -/
def get_i8 (debug : Bool) (r : Row) (index : Nat) : GetResult Int :=
  match r.values[index]? with
  | none => GetResult.ok none
  | some (Value.Int8 v) => GetResult.ok (some v)
  | some Value.Null => GetResult.ok none
  | some other => handle_type_mismatch debug index "i8" other

/-- Embedding of `Row::get_i8_unchecked`. -/
def get_i8_unchecked (debug : Bool) (r : Row) (index : Nat)
    (h : index < r.values.length) : GetResult Int :=
  match r.values[index] with
  | Value.Int8 v => GetResult.ok (some v)
  | Value.Null => GetResult.ok none
  | other => handle_type_mismatch debug index "i8" other

/-- Embedding of `Row::get_i16`. -/
def get_i16 (debug : Bool) (r : Row) (index : Nat) : GetResult Int :=
  match r.values[index]? with
  | none => GetResult.ok none
  | some (Value.Int16 v) => GetResult.ok (some v)
  | some Value.Null => GetResult.ok none
  | some other => handle_type_mismatch debug index "i16" other

/-- Embedding of `Row::get_i16_unchecked`. -/
def get_i16_unchecked (debug : Bool) (r : Row) (index : Nat)
    (h : index < r.values.length) : GetResult Int :=
  match r.values[index] with
  | Value.Int16 v => GetResult.ok (some v)
  | Value.Null => GetResult.ok none
  | other => handle_type_mismatch debug index "i16" other

/-- Embedding of `Row::get_i32`. -/
def get_i32 (debug : Bool) (r : Row) (index : Nat) : GetResult Int :=
  match r.values[index]? with
  | none => GetResult.ok none
  | some (Value.Int32 v) => GetResult.ok (some v)
  | some Value.Null => GetResult.ok none
  | some other => handle_type_mismatch debug index "i32" other

/-- Embedding of `Row::get_i32_unchecked`. -/
def get_i32_unchecked (debug : Bool) (r : Row) (index : Nat)
    (h : index < r.values.length) : GetResult Int :=
  match r.values[index] with
  | Value.Int32 v => GetResult.ok (some v)
  | Value.Null => GetResult.ok none
  | other => handle_type_mismatch debug index "i32" other

/-- Embedding of `Row::get_i64`. -/
def get_i64 (debug : Bool) (r : Row) (index : Nat) : GetResult Int :=
  match r.values[index]? with
  | none => GetResult.ok none
  | some (Value.Int64 v) => GetResult.ok (some v)
  | some Value.Null => GetResult.ok none
  | some other => handle_type_mismatch debug index "i64" other

/-- Embedding of `Row::get_i64_unchecked`. -/
def get_i64_unchecked (debug : Bool) (r : Row) (index : Nat)
    (h : index < r.values.length) : GetResult Int :=
  match r.values[index] with
  | Value.Int64 v => GetResult.ok (some v)
  | Value.Null => GetResult.ok none
  | other => handle_type_mismatch debug index "i64" other

/-- Embedding of `Row::get_u8`. -/
def get_u8 (debug : Bool) (r : Row) (index : Nat) : GetResult Nat :=
  match r.values[index]? with
  | none => GetResult.ok none
  | some (Value.Uint8 v) => GetResult.ok (some v)
  | some Value.Null => GetResult.ok none
  | some other => handle_type_mismatch debug index "u8" other

/-- Embedding of `Row::get_u8_unchecked`. -/
def get_u8_unchecked (debug : Bool) (r : Row) (index : Nat)
    (h : index < r.values.length) : GetResult Nat :=
  match r.values[index] with
  | Value.Uint8 v => GetResult.ok (some v)
  | Value.Null => GetResult.ok none
  | other => handle_type_mismatch debug index "u8" other

/-- Embedding of `Row::get_u16`. -/
def get_u16 (debug : Bool) (r : Row) (index : Nat) : GetResult Nat :=
  match r.values[index]? with
  | none => GetResult.ok none
  | some (Value.Uint16 v) => GetResult.ok (some v)
  | some Value.Null => GetResult.ok none
  | some other => handle_type_mismatch debug index "u16" other

/-- Embedding of `Row::get_u16_unchecked`. -/
def get_u16_unchecked (debug : Bool) (r : Row) (index : Nat)
    (h : index < r.values.length) : GetResult Nat :=
  match r.values[index] with
  | Value.Uint16 v => GetResult.ok (some v)
  | Value.Null => GetResult.ok none
  | other => handle_type_mismatch debug index "u16" other

/-- Embedding of `Row::get_u32`. -/
def get_u32 (debug : Bool) (r : Row) (index : Nat) : GetResult Nat :=
  match r.values[index]? with
  | none => GetResult.ok none
  | some (Value.Uint32 v) => GetResult.ok (some v)
  | some Value.Null => GetResult.ok none
  | some other => handle_type_mismatch debug index "u32" other

/-- Embedding of `Row::get_u32_unchecked`. -/
def get_u32_unchecked (debug : Bool) (r : Row) (index : Nat)
    (h : index < r.values.length) : GetResult Nat :=
  match r.values[index] with
  | Value.Uint32 v => GetResult.ok (some v)
  | Value.Null => GetResult.ok none
  | other => handle_type_mismatch debug index "u32" other

/-- Embedding of `Row::get_u64`. -/
def get_u64 (debug : Bool) (r : Row) (index : Nat) : GetResult Nat :=
  match r.values[index]? with
  | none => GetResult.ok none
  | some (Value.Uint64 v) => GetResult.ok (some v)
  | some Value.Null => GetResult.ok none
  | some other => handle_type_mismatch debug index "u64" other

/-- Embedding of `Row::get_u64_unchecked`. -/
def get_u64_unchecked (debug : Bool) (r : Row) (index : Nat)
    (h : index < r.values.length) : GetResult Nat :=
  match r.values[index] with
  | Value.Uint64 v => GetResult.ok (some v)
  | Value.Null => GetResult.ok none
  | other => handle_type_mismatch debug index "u64" other

/-- Embedding of `Row::get_f32` (float payload is the stored bit pattern,
returned uninterpreted). -/
def get_f32 (debug : Bool) (r : Row) (index : Nat) : GetResult Nat :=
  match r.values[index]? with
  | none => GetResult.ok none
  | some (Value.Float32 v) => GetResult.ok (some v)
  | some Value.Null => GetResult.ok none
  | some other => handle_type_mismatch debug index "f32" other

/-- Embedding of `Row::get_f32_unchecked`. -/
def get_f32_unchecked (debug : Bool) (r : Row) (index : Nat)
    (h : index < r.values.length) : GetResult Nat :=
  match r.values[index] with
  | Value.Float32 v => GetResult.ok (some v)
  | Value.Null => GetResult.ok none
  | other => handle_type_mismatch debug index "f32" other

/-- Embedding of `Row::get_f64`. -/
def get_f64 (debug : Bool) (r : Row) (index : Nat) : GetResult Nat :=
  match r.values[index]? with
  | none => GetResult.ok none
  | some (Value.Float64 v) => GetResult.ok (some v)
  | some Value.Null => GetResult.ok none
  | some other => handle_type_mismatch debug index "f64" other

/-- Embedding of `Row::get_f64_unchecked`. -/
def get_f64_unchecked (debug : Bool) (r : Row) (index : Nat)
    (h : index < r.values.length) : GetResult Nat :=
  match r.values[index] with
  | Value.Float64 v => GetResult.ok (some v)
  | Value.Null => GetResult.ok none
  | other => handle_type_mismatch debug index "f64" other

/-- Embedding of `Row::get_binary` (src/src/table.rs:404-411): a stored
`String` case is returned as its UTF-8 bytes (the deliberate JSON-as-text
accommodation). -/
def get_binary (debug : Bool) (r : Row) (index : Nat) : GetResult (List UInt8) :=
  match r.values[index]? with
  | none => GetResult.ok none
  | some (Value.Binary v) => GetResult.ok (some v)
  | some (Value.String v) => GetResult.ok (some (strBytes v))
  | some Value.Null => GetResult.ok none
  | some other => handle_type_mismatch debug index "binary" other

/-- Embedding of `Row::get_binary_unchecked`. -/
def get_binary_unchecked (debug : Bool) (r : Row) (index : Nat)
    (h : index < r.values.length) : GetResult (List UInt8) :=
  match r.values[index] with
  | Value.Binary v => GetResult.ok (some v)
  | Value.String v => GetResult.ok (some (strBytes v))
  | Value.Null => GetResult.ok none
  | other => handle_type_mismatch debug index "binary" other

/-- Embedding of `Row::take_binary_unchecked` (src/src/table.rs:436-443):
the slot is replaced by `Null` first (`mem::replace`), then the old value is
examined; `String::into_bytes` yields the UTF-8 bytes. -/
def take_binary_unchecked (debug : Bool) (r : Row) (index : Nat)
    (h : index < r.values.length) : GetResult (List UInt8) × Row :=
  let old := r.values[index]
  let replaced : Row := ⟨r.values.set index Value.Null⟩
  match old with
  | Value.Binary v => (GetResult.ok (some v), replaced)
  | Value.String v => (GetResult.ok (some (strBytes v)), replaced)
  | Value.Null => (GetResult.ok none, replaced)
  | other => (handle_type_mismatch debug index "binary" other, replaced)

/-- Embedding of `Row::take_binary` (src/src/table.rs:426-431): out-of-range
returns `None` and leaves the row unchanged. -/
def take_binary (debug : Bool) (r : Row) (index : Nat) :
    GetResult (List UInt8) × Row :=
  if h : index < r.values.length then take_binary_unchecked debug r index h
  else (GetResult.ok none, r)

/-- Embedding of `Row::get_string` (src/src/table.rs:446-452). -/
def get_string (debug : Bool) (r : Row) (index : Nat) : GetResult String :=
  match r.values[index]? with
  | none => GetResult.ok none
  | some (Value.String v) => GetResult.ok (some v)
  | some Value.Null => GetResult.ok none
  | some other => handle_type_mismatch debug index "string" other

/-- Embedding of `Row::get_string_unchecked`. -/
def get_string_unchecked (debug : Bool) (r : Row) (index : Nat)
    (h : index < r.values.length) : GetResult String :=
  match r.values[index] with
  | Value.String v => GetResult.ok (some v)
  | Value.Null => GetResult.ok none
  | other => handle_type_mismatch debug index "string" other

/-- Embedding of `Row::take_string_unchecked` (src/src/table.rs:476-482). -/
def take_string_unchecked (debug : Bool) (r : Row) (index : Nat)
    (h : index < r.values.length) : GetResult String × Row :=
  let old := r.values[index]
  let replaced : Row := ⟨r.values.set index Value.Null⟩
  match old with
  | Value.String v => (GetResult.ok (some v), replaced)
  | Value.Null => (GetResult.ok none, replaced)
  | other => (handle_type_mismatch debug index "string" other, replaced)

/-- Embedding of `Row::take_string` (src/src/table.rs:466-471). -/
def take_string (debug : Bool) (r : Row) (index : Nat) :
    GetResult String × Row :=
  if h : index < r.values.length then take_string_unchecked debug r index h
  else (GetResult.ok none, r)

/-- Embedding of `Row::get_date`. -/
def get_date (debug : Bool) (r : Row) (index : Nat) : GetResult Int :=
  match r.values[index]? with
  | none => GetResult.ok none
  | some (Value.Date v) => GetResult.ok (some v)
  | some Value.Null => GetResult.ok none
  | some other => handle_type_mismatch debug index "date" other

/-- Embedding of `Row::get_date_unchecked`. -/
def get_date_unchecked (debug : Bool) (r : Row) (index : Nat)
    (h : index < r.values.length) : GetResult Int :=
  match r.values[index] with
  | Value.Date v => GetResult.ok (some v)
  | Value.Null => GetResult.ok none
  | other => handle_type_mismatch debug index "date" other

/-- Embedding of `Row::get_datetime`. -/
def get_datetime (debug : Bool) (r : Row) (index : Nat) : GetResult Int :=
  match r.values[index]? with
  | none => GetResult.ok none
  | some (Value.Datetime v) => GetResult.ok (some v)
  | some Value.Null => GetResult.ok none
  | some other => handle_type_mismatch debug index "datetime" other

/-- Embedding of `Row::get_datetime_unchecked`. -/
def get_datetime_unchecked (debug : Bool) (r : Row) (index : Nat)
    (h : index < r.values.length) : GetResult Int :=
  match r.values[index] with
  | Value.Datetime v => GetResult.ok (some v)
  | Value.Null => GetResult.ok none
  | other => handle_type_mismatch debug index "datetime" other

/-- Embedding of `Row::get_timestamp` (src/src/table.rs:525-534): accepts any
of the four timestamp resolutions and returns the raw stored integer. -/
def get_timestamp (debug : Bool) (r : Row) (index : Nat) : GetResult Int :=
  match r.values[index]? with
  | none => GetResult.ok none
  | some (Value.TimestampSecond v) => GetResult.ok (some v)
  | some (Value.TimestampMillisecond v) => GetResult.ok (some v)
  | some (Value.TimestampMicrosecond v) => GetResult.ok (some v)
  | some (Value.TimestampNanosecond v) => GetResult.ok (some v)
  | some Value.Null => GetResult.ok none
  | some other => handle_type_mismatch debug index "timestamp" other

/-- Embedding of `Row::get_timestamp_unchecked`. -/
def get_timestamp_unchecked (debug : Bool) (r : Row) (index : Nat)
    (h : index < r.values.length) : GetResult Int :=
  match r.values[index] with
  | Value.TimestampSecond v => GetResult.ok (some v)
  | Value.TimestampMillisecond v => GetResult.ok (some v)
  | Value.TimestampMicrosecond v => GetResult.ok (some v)
  | Value.TimestampNanosecond v => GetResult.ok (some v)
  | Value.Null => GetResult.ok none
  | other => handle_type_mismatch debug index "timestamp" other

/-- Embedding of `Row::get_time32`. -/
def get_time32 (debug : Bool) (r : Row) (index : Nat) : GetResult Int :=
  match r.values[index]? with
  | none => GetResult.ok none
  | some (Value.TimeSecond v) => GetResult.ok (some v)
  | some (Value.TimeMillisecond v) => GetResult.ok (some v)
  | some Value.Null => GetResult.ok none
  | some other => handle_type_mismatch debug index "time32" other

/-- Embedding of `Row::get_time32_unchecked`. -/
def get_time32_unchecked (debug : Bool) (r : Row) (index : Nat)
    (h : index < r.values.length) : GetResult Int :=
  match r.values[index] with
  | Value.TimeSecond v => GetResult.ok (some v)
  | Value.TimeMillisecond v => GetResult.ok (some v)
  | Value.Null => GetResult.ok none
  | other => handle_type_mismatch debug index "time32" other

/-- Embedding of `Row::get_time64`. -/
def get_time64 (debug : Bool) (r : Row) (index : Nat) : GetResult Int :=
  match r.values[index]? with
  | none => GetResult.ok none
  | some (Value.TimeMicrosecond v) => GetResult.ok (some v)
  | some (Value.TimeNanosecond v) => GetResult.ok (some v)
  | some Value.Null => GetResult.ok none
  | some other => handle_type_mismatch debug index "time64" other

/-- Embedding of `Row::get_time64_unchecked`. -/
def get_time64_unchecked (debug : Bool) (r : Row) (index : Nat)
    (h : index < r.values.length) : GetResult Int :=
  match r.values[index] with
  | Value.TimeMicrosecond v => GetResult.ok (some v)
  | Value.TimeNanosecond v => GetResult.ok (some v)
  | Value.Null => GetResult.ok none
  | other => handle_type_mismatch debug index "time64" other

/-- Embedding of `Row::get_decimal128`. -/
def get_decimal128 (debug : Bool) (r : Row) (index : Nat) : GetResult Int :=
  match r.values[index]? with
  | none => GetResult.ok none
  | some (Value.Decimal128 v) => GetResult.ok (some v)
  | some Value.Null => GetResult.ok none
  | some other => handle_type_mismatch debug index "decimal128" other

/-- Embedding of `Row::get_decimal128_unchecked`. -/
def get_decimal128_unchecked (debug : Bool) (r : Row) (index : Nat)
    (h : index < r.values.length) : GetResult Int :=
  match r.values[index] with
  | Value.Decimal128 v => GetResult.ok (some v)
  | Value.Null => GetResult.ok none
  | other => handle_type_mismatch debug index "decimal128" other

end Row

/-- Modelled from the spec: wire-level row values for the alternate insertion
path (capability B of the Row Source abstraction).  The value-constructor
helpers `timestamp_millisecond_value`, `string_value`, `i64_value` from
`greptimedb_ingester::helpers::values` are not under src/; each is a plain
constructor of the wire value of that type. -/
inductive ApiValue where
  | timestampMillisecondValue (v : Int)
  | stringValue (v : String)
  | i64Value (v : Int)
deriving DecidableEq, Repr

/-- Wire-level row record (`api::v1::Row`): an ordered list of wire values. -/
structure ApiRow where
  values : List ApiValue
deriving DecidableEq, Repr

/-- Embedding of `struct LogTableDataProvider`
(src/examples/bench/log_table_data_provider.rs): a shared cursor
`current_row`, the target `row_count`, the base timestamp, and the
pre-generated immutable value pools.  Pool contents are construction-time
data (randomness and the missing `LogTextHelper` only affect what the pools
hold), so they appear here as arbitrary field values. -/
structure LogTableDataProvider where
  table_name : String
  row_count : Nat
  current_row : Nat
  base_time : Int
  host_ids : List String
  host_names : List String
  service_ids : List String
  service_names : List String
  container_ids : List String
  container_names : List String
  pod_ids : List String
  pod_names : List String
  cluster_ids : List String
  cluster_names : List String
  trace_ids : List String
  span_ids : List String
  user_ids : List String
  session_ids : List String
  request_ids : List String
  log_uids : List String
  log_entries : List (String × String)
deriving DecidableEq, Repr

namespace LogTableDataProvider

/-- Embedding of `LogTableDataProvider::generate_row`
(src/examples/bench/log_table_data_provider.rs:212-269).  Pool indexing uses
`getD` with a default; in the Rust code every index is reduced modulo the
pool length, so the default is never hit when the pools are non-empty.
Returns the produced row (if any) together with the updated provider state
(`current_row` advances only on a successful pull). -/
def generate_row (p : LogTableDataProvider) :
    Option Row × LogTableDataProvider :=
  if p.current_row ≥ p.row_count then (none, p)
  else
    let pool_len := p.host_ids.length
    let base_idx := p.current_row % pool_len
    let random_offset := (p.current_row * 7 + 13) % pool_len
    let timestamp : Int :=
      p.base_time + (p.current_row : Int) + ((random_offset % 2000 : Nat) : Int) - 1000
    let log_uid := p.log_uids.getD base_idx ""
    let log_entry_idx := p.current_row % p.log_entries.length
    let entry := p.log_entries.getD log_entry_idx ("", "")
    let idx1 := base_idx
    let idx2 := (base_idx + 1) % pool_len
    let idx3 := (base_idx + 2) % pool_len
    let idx4 := (base_idx + 3) % pool_len
    let idx5 := (base_idx + 4) % pool_len
    let response_time_ms : Int := ((base_idx % 999) + 1 : Nat)
    (some ⟨[
      Value.TimestampMillisecond timestamp,
      Value.String log_uid,
      Value.String entry.2,
      Value.String entry.1,
      Value.String (p.host_ids.getD idx1 ""),
      Value.String (p.host_names.getD idx1 ""),
      Value.String (p.service_ids.getD idx2 ""),
      Value.String (p.service_names.getD idx2 ""),
      Value.String (p.container_ids.getD idx3 ""),
      Value.String (p.container_names.getD idx3 ""),
      Value.String (p.pod_ids.getD idx4 ""),
      Value.String (p.pod_names.getD idx4 ""),
      Value.String (p.cluster_ids.getD idx5 ""),
      Value.String (p.cluster_names.getD idx5 ""),
      Value.String (p.trace_ids.getD idx1 ""),
      Value.String (p.span_ids.getD idx2 ""),
      Value.String (p.user_ids.getD idx3 ""),
      Value.String (p.session_ids.getD idx4 ""),
      Value.String (p.request_ids.getD idx5 ""),
      Value.Int64 response_time_ms,
      Value.String "application",
      Value.String "v1.0.0"]⟩,
     { p with current_row := p.current_row + 1 })

/-- Embedding of `LogTableDataProvider::generate_api_row`
(src/examples/bench/log_table_data_provider.rs:272-332): the same
deterministic generation logic as `generate_row`, producing a wire-level
`ApiRow` instead. -/
def generate_api_row (p : LogTableDataProvider) :
    Option ApiRow × LogTableDataProvider :=
  if p.current_row ≥ p.row_count then (none, p)
  else
    let pool_len := p.host_ids.length
    let base_idx := p.current_row % pool_len
    let random_offset := (p.current_row * 7 + 13) % pool_len
    let timestamp : Int :=
      p.base_time + (p.current_row : Int) + ((random_offset % 2000 : Nat) : Int) - 1000
    let log_uid := p.log_uids.getD base_idx ""
    let log_entry_idx := p.current_row % p.log_entries.length
    let entry := p.log_entries.getD log_entry_idx ("", "")
    let idx1 := base_idx
    let idx2 := (base_idx + 1) % pool_len
    let idx3 := (base_idx + 2) % pool_len
    let idx4 := (base_idx + 3) % pool_len
    let idx5 := (base_idx + 4) % pool_len
    let response_time_ms : Int := ((base_idx % 999) + 1 : Nat)
    (some ⟨[
      ApiValue.timestampMillisecondValue timestamp,
      ApiValue.stringValue log_uid,
      ApiValue.stringValue entry.2,
      ApiValue.stringValue entry.1,
      ApiValue.stringValue (p.host_ids.getD idx1 ""),
      ApiValue.stringValue (p.host_names.getD idx1 ""),
      ApiValue.stringValue (p.service_ids.getD idx2 ""),
      ApiValue.stringValue (p.service_names.getD idx2 ""),
      ApiValue.stringValue (p.container_ids.getD idx3 ""),
      ApiValue.stringValue (p.container_names.getD idx3 ""),
      ApiValue.stringValue (p.pod_ids.getD idx4 ""),
      ApiValue.stringValue (p.pod_names.getD idx4 ""),
      ApiValue.stringValue (p.cluster_ids.getD idx5 ""),
      ApiValue.stringValue (p.cluster_names.getD idx5 ""),
      ApiValue.stringValue (p.trace_ids.getD idx1 ""),
      ApiValue.stringValue (p.span_ids.getD idx2 ""),
      ApiValue.stringValue (p.user_ids.getD idx3 ""),
      ApiValue.stringValue (p.session_ids.getD idx4 ""),
      ApiValue.stringValue (p.request_ids.getD idx5 ""),
      ApiValue.i64Value response_time_ms,
      ApiValue.stringValue "application",
      ApiValue.stringValue "v1.0.0"]⟩,
     { p with current_row := p.current_row + 1 })

end LogTableDataProvider

/-- The structured row the provider produces at cursor position `i`
(`none` once `i` is at or past `row_count`). -/
def rowAt (p : LogTableDataProvider) (i : Nat) : Option Row :=
  (LogTableDataProvider.generate_row { p with current_row := i }).1

/-- The wire-level row the provider produces at cursor position `i`. -/
def apiRowAt (p : LogTableDataProvider) (i : Nat) : Option ApiRow :=
  (LogTableDataProvider.generate_api_row { p with current_row := i }).1

/-- Embedding of `ApiRowIterator`
(src/examples/bench/log_table_data_provider.rs:528-531): the regular-API
iterator keeps its own cursor, separate from the provider's shared one. -/
structure ApiRowIterator where
  current_row : Nat
deriving DecidableEq, Repr

/-- Embedding of `ApiRowIterator::next`
(src/examples/bench/log_table_data_provider.rs:536-548): saves the
provider's shared cursor, installs the iterator's own cursor, generates, then
stores the advanced position back into the iterator and restores the saved
provider cursor. -/
def ApiRowIterator.next (it : ApiRowIterator) (p : LogTableDataProvider) :
    Option ApiRow × ApiRowIterator × LogTableDataProvider :=
  let saved_current := p.current_row
  let p1 := { p with current_row := it.current_row }
  let step := p1.generate_api_row
  let it2 : ApiRowIterator := ⟨step.2.current_row⟩
  let p3 := { step.2 with current_row := saved_current }
  (step.1, it2, p3)

/-- Embedding of `LogRowIterator::next`
(src/examples/bench/log_table_data_provider.rs:556-562): the structured-row
iterator drives the provider's shared cursor directly. -/
def LogRowIterator.next (p : LogTableDataProvider) :
    Option Row × LogTableDataProvider :=
  p.generate_row

/-- Drive the structured-row iterator (`rows()`) for `n` consecutive pulls,
collecting the outputs in order. -/
def driveRows (p : LogTableDataProvider) : Nat →
    List (Option Row) × LogTableDataProvider
  | 0 => ([], p)
  | n + 1 =>
    let step := LogRowIterator.next p
    let rest := driveRows step.2 n
    (step.1 :: rest.1, rest.2)

/-- Drive the api-row iterator (`api_rows()`) for `n` consecutive pulls,
collecting the outputs in order. -/
def driveApi (it : ApiRowIterator) (p : LogTableDataProvider) : Nat →
    List (Option ApiRow) × ApiRowIterator × LogTableDataProvider
  | 0 => ([], it, p)
  | n + 1 =>
    let step := it.next p
    let rest := driveApi step.2.1 step.2.2 n
    (step.1 :: rest.1, rest.2)

/-- Drive both iterators of the same provider in strict alternation (pull the
structured iterator, then the api iterator) for `n` rounds, collecting each
iterator's outputs in order. -/
def driveAlt (p : LogTableDataProvider) (it : ApiRowIterator) : Nat →
    List (Option Row) × List (Option ApiRow) × LogTableDataProvider × ApiRowIterator
  | 0 => ([], [], p, it)
  | n + 1 =>
    let stepA := LogRowIterator.next p
    let stepB := it.next stepA.2
    let rest := driveAlt stepB.2.2 stepB.2.1 n
    (stepA.1 :: rest.1, stepB.1 :: rest.2.1, rest.2.2)

/-- Embedding of the submission loop of `BulkApiBenchmarkRunner::run_benchmark`
(src/examples/bench/benchmark_runner.rs:203-250).  The row iterator is a
finite list `rows`; `submit k` is the outcome of `write_rows_async` for the
`k`-th filled batch (`none` = success, `some e` = failure).  Each iteration
fills a buffer with up to `batchSize` rows (`rows.take batchSize`), breaking
out of the run when the source is exhausted before the buffer fills
(`rows.length < batchSize`); an empty buffer ends the loop without a
submission; a submission failure ends the loop immediately, so no further
batch is filled or submitted.  Returns the submitted batch sizes in order
and the first submission error, if any. -/
def runLoop {α ε : Type} (submit : Nat → Option ε) (batchSize : Nat)
    (rows : List α) (batchIdx : Nat) : List Nat × Option ε :=
  if h1 : (rows.take batchSize).length = 0 then ([], none)
  else
    match submit batchIdx with
    | some e => ([(rows.take batchSize).length], some e)
    | none =>
      if rows.length < batchSize then ([(rows.take batchSize).length], none)
      else
        let rest := runLoop submit batchSize (rows.drop batchSize) (batchIdx + 1)
        ((rows.take batchSize).length :: rest.1, rest.2)
termination_by rows.length
decreasing_by
  simp only [List.length_take] at h1
  simp only [List.length_drop]
  omega

/-- Embedding of `run_benchmark`'s terminal outcome.  The loop is embedded
from the source; the drain is modelled from the spec: `finish_with_responses`
blocks until every submitted write is acknowledged, returning one
acknowledgement per submitted batch carrying that batch's affected-row count,
or the triggering submission error, in which case the run is reported failed
(Errored) rather than successful. -/
def run_benchmark {α ε : Type} (submit : Nat → Option ε) (batchSize : Nat)
    (rows : List α) : Except ε (List Nat) :=
  let r := runLoop submit batchSize rows 0
  match r.2 with
  | some e => Except.error e
  | none => Except.ok r.1

/-- C7: for every row and every in-range index whose slot holds the null
case, every typed getter — checked and unchecked — returns no value,
regardless of the requested type, in both build configurations (`d` ranges
over both). -/
theorem claim_C7_null_yields_none (d : Bool) (r : Row) (i : Nat)
    (h : r.values[i]? = some Value.Null) :
    (Row.get_bool d r i = GetResult.ok none ∧
    Row.get_i8 d r i = GetResult.ok none ∧
    Row.get_i16 d r i = GetResult.ok none ∧
    Row.get_i32 d r i = GetResult.ok none ∧
    Row.get_i64 d r i = GetResult.ok none ∧
    Row.get_u8 d r i = GetResult.ok none ∧
    Row.get_u16 d r i = GetResult.ok none ∧
    Row.get_u32 d r i = GetResult.ok none ∧
    Row.get_u64 d r i = GetResult.ok none ∧
    Row.get_f32 d r i = GetResult.ok none ∧
    Row.get_f64 d r i = GetResult.ok none ∧
    Row.get_binary d r i = GetResult.ok none ∧
    Row.get_string d r i = GetResult.ok none ∧
    Row.get_date d r i = GetResult.ok none ∧
    Row.get_datetime d r i = GetResult.ok none ∧
    Row.get_timestamp d r i = GetResult.ok none ∧
    Row.get_time32 d r i = GetResult.ok none ∧
    Row.get_time64 d r i = GetResult.ok none ∧
    Row.get_decimal128 d r i = GetResult.ok none) ∧
    ∀ (hlt : i < r.values.length),
      (Row.get_bool_unchecked d r i hlt = GetResult.ok none ∧
      Row.get_i8_unchecked d r i hlt = GetResult.ok none ∧
      Row.get_i16_unchecked d r i hlt = GetResult.ok none ∧
      Row.get_i32_unchecked d r i hlt = GetResult.ok none ∧
      Row.get_i64_unchecked d r i hlt = GetResult.ok none ∧
      Row.get_u8_unchecked d r i hlt = GetResult.ok none ∧
      Row.get_u16_unchecked d r i hlt = GetResult.ok none ∧
      Row.get_u32_unchecked d r i hlt = GetResult.ok none ∧
      Row.get_u64_unchecked d r i hlt = GetResult.ok none ∧
      Row.get_f32_unchecked d r i hlt = GetResult.ok none ∧
      Row.get_f64_unchecked d r i hlt = GetResult.ok none ∧
      Row.get_binary_unchecked d r i hlt = GetResult.ok none ∧
      Row.get_string_unchecked d r i hlt = GetResult.ok none ∧
      Row.get_date_unchecked d r i hlt = GetResult.ok none ∧
      Row.get_datetime_unchecked d r i hlt = GetResult.ok none ∧
      Row.get_timestamp_unchecked d r i hlt = GetResult.ok none ∧
      Row.get_time32_unchecked d r i hlt = GetResult.ok none ∧
      Row.get_time64_unchecked d r i hlt = GetResult.ok none ∧
      Row.get_decimal128_unchecked d r i hlt = GetResult.ok none) := by
  constructor
  · refine ⟨?_, ?_, ?_, ?_, ?_, ?_, ?_, ?_, ?_, ?_, ?_, ?_, ?_, ?_, ?_, ?_, ?_, ?_, ?_⟩ <;>
      simp [Row.get_bool, Row.get_i8, Row.get_i16, Row.get_i32, Row.get_i64, Row.get_u8, Row.get_u16, Row.get_u32, Row.get_u64, Row.get_f32, Row.get_f64, Row.get_binary, Row.get_string, Row.get_date, Row.get_datetime, Row.get_timestamp, Row.get_time32, Row.get_time64, Row.get_decimal128, h]
  · intro hlt
    have hget : r.values[i] = Value.Null := by
      have := List.getElem?_eq_getElem hlt
      rw [h] at this
      exact (Option.some_inj.mp this).symm
    refine ⟨?_, ?_, ?_, ?_, ?_, ?_, ?_, ?_, ?_, ?_, ?_, ?_, ?_, ?_, ?_, ?_, ?_, ?_, ?_⟩ <;>
      simp [Row.get_bool_unchecked, Row.get_i8_unchecked, Row.get_i16_unchecked, Row.get_i32_unchecked, Row.get_i64_unchecked, Row.get_u8_unchecked, Row.get_u16_unchecked, Row.get_u32_unchecked, Row.get_u64_unchecked, Row.get_f32_unchecked, Row.get_f64_unchecked, Row.get_binary_unchecked, Row.get_string_unchecked, Row.get_date_unchecked, Row.get_datetime_unchecked, Row.get_timestamp_unchecked, Row.get_time32_unchecked, Row.get_time64_unchecked, Row.get_decimal128_unchecked, hget]

/-- Witness for C7 at the concrete row holding a single null slot. -/
theorem claim_C7_null_yields_none_witness :
    Row.get_bool true ⟨[Value.Null]⟩ 0 = GetResult.ok none :=
  (claim_C7_null_yields_none true ⟨[Value.Null]⟩ 0 rfl).1.1

/-- C9: under the in-range precondition, every checked accessor and its
unchecked variant return the same result, for every row, index and build
configuration. -/
theorem claim_C9_checked_unchecked_agree (d : Bool) (r : Row) (i : Nat)
    (h : i < r.values.length) :
    Row.get_bool d r i = Row.get_bool_unchecked d r i h ∧
    Row.get_i8 d r i = Row.get_i8_unchecked d r i h ∧
    Row.get_i16 d r i = Row.get_i16_unchecked d r i h ∧
    Row.get_i32 d r i = Row.get_i32_unchecked d r i h ∧
    Row.get_i64 d r i = Row.get_i64_unchecked d r i h ∧
    Row.get_u8 d r i = Row.get_u8_unchecked d r i h ∧
    Row.get_u16 d r i = Row.get_u16_unchecked d r i h ∧
    Row.get_u32 d r i = Row.get_u32_unchecked d r i h ∧
    Row.get_u64 d r i = Row.get_u64_unchecked d r i h ∧
    Row.get_f32 d r i = Row.get_f32_unchecked d r i h ∧
    Row.get_f64 d r i = Row.get_f64_unchecked d r i h ∧
    Row.get_binary d r i = Row.get_binary_unchecked d r i h ∧
    Row.get_string d r i = Row.get_string_unchecked d r i h ∧
    Row.get_date d r i = Row.get_date_unchecked d r i h ∧
    Row.get_datetime d r i = Row.get_datetime_unchecked d r i h ∧
    Row.get_timestamp d r i = Row.get_timestamp_unchecked d r i h ∧
    Row.get_time32 d r i = Row.get_time32_unchecked d r i h ∧
    Row.get_time64 d r i = Row.get_time64_unchecked d r i h ∧
    Row.get_decimal128 d r i = Row.get_decimal128_unchecked d r i h := by
  have hq : r.values[i]? = some (r.values[i]) := List.getElem?_eq_getElem h
  cases hv : r.values[i] <;>
    simp_all [Row.get_bool, Row.get_i8, Row.get_i16, Row.get_i32, Row.get_i64, Row.get_u8, Row.get_u16, Row.get_u32, Row.get_u64, Row.get_f32, Row.get_f64, Row.get_binary, Row.get_string, Row.get_date, Row.get_datetime, Row.get_timestamp, Row.get_time32, Row.get_time64, Row.get_decimal128,
      Row.get_bool_unchecked, Row.get_i8_unchecked, Row.get_i16_unchecked, Row.get_i32_unchecked, Row.get_i64_unchecked, Row.get_u8_unchecked, Row.get_u16_unchecked, Row.get_u32_unchecked, Row.get_u64_unchecked, Row.get_f32_unchecked, Row.get_f64_unchecked, Row.get_binary_unchecked, Row.get_string_unchecked, Row.get_date_unchecked, Row.get_datetime_unchecked, Row.get_timestamp_unchecked, Row.get_time32_unchecked, Row.get_time64_unchecked, Row.get_decimal128_unchecked]

/-- Witness for C9 at a concrete in-range index. -/
theorem claim_C9_checked_unchecked_agree_witness :
    Row.get_bool true ⟨[Value.Boolean true]⟩ 0 =
      Row.get_bool_unchecked true ⟨[Value.Boolean true]⟩ 0 (by decide) :=
  (claim_C9_checked_unchecked_agree true ⟨[Value.Boolean true]⟩ 0 (by decide)).1

end Greptime

namespace Greptime

/-- Unfolding: an empty filled buffer ends the loop with no submission. -/
theorem runLoop_stop {α ε : Type} (submit : Nat → Option ε) (b : Nat)
    (rows : List α) (k : Nat) (h : (rows.take b).length = 0) :
    runLoop submit b rows k = ([], none) := by
  rw [runLoop]
  simp [h]

/-- Unfolding: a failed submission of a non-empty batch ends the loop
immediately, recording the error. -/
theorem runLoop_err {α ε : Type} (submit : Nat → Option ε) (b : Nat)
    (rows : List α) (k : Nat) (e : ε) (h : (rows.take b).length ≠ 0)
    (hs : submit k = some e) :
    runLoop submit b rows k = ([(rows.take b).length], some e) := by
  rw [runLoop]
  simp [h, hs]
  constructor
  · rintro rfl; simp at h
  · rintro rfl; simp at h

/-- Unfolding: a successfully submitted batch filled from an exhausted source
is the last one. -/
theorem runLoop_last {α ε : Type} (submit : Nat → Option ε) (b : Nat)
    (rows : List α) (k : Nat) (h : (rows.take b).length ≠ 0)
    (hs : submit k = none) (hl : rows.length < b) :
    runLoop submit b rows k = ([(rows.take b).length], none) := by
  rw [runLoop]
  simp [h, hs, hl]
  constructor
  · rintro rfl; simp at h
  · rintro rfl; simp at h

/-- Unfolding: after a successfully submitted full batch the loop continues
on the remaining rows. -/
theorem runLoop_cont {α ε : Type} (submit : Nat → Option ε) (b : Nat)
    (rows : List α) (k : Nat) (h : (rows.take b).length ≠ 0)
    (hs : submit k = none) (hl : ¬ rows.length < b) :
    runLoop submit b rows k =
      ((rows.take b).length :: (runLoop submit b (rows.drop b) (k + 1)).1,
       (runLoop submit b (rows.drop b) (k + 1)).2) := by
  conv_lhs => rw [runLoop]
  simp [h, hs, hl]
  constructor
  · rintro rfl; simp at h
  · rintro rfl; simp at h

/-- C1: with a row source yielding exactly 250 rows and batch_size = 100, the
submission loop fills and submits exactly 3 batches of sizes 100, 100, 50 in
that order, and after draining the collected acknowledgements' affected-row
counts sum to 250; and for every source, batch_size = 0 or an empty source
yields zero submissions and zero acknowledgements. -/
theorem claim_C1_batching_counts {α ε : Type} (rows : List α)
    (submit : Nat → Option ε) (h : rows.length = 250)
    (hs : ∀ k, submit k = none) :
    (runLoop submit 100 rows 0 = ([100, 100, 50], none) ∧
      run_benchmark submit 100 rows = Except.ok [100, 100, 50] ∧
      ([100, 100, 50] : List Nat).sum = 250) ∧
    (∀ (rows2 : List α) (submit2 : Nat → Option ε),
      (runLoop submit2 0 rows2 0 = ([], none) ∧
        run_benchmark submit2 0 rows2 = Except.ok []) ∧
      ∀ b : Nat, runLoop submit2 b ([] : List α) 0 = ([], none) ∧
        run_benchmark submit2 b ([] : List α) = Except.ok []) := by
  have hloop : runLoop submit 100 rows 0 = ([100, 100, 50], none) := by
    have h1 : (rows.take 100).length = 100 := by simp [h]
    have hd1 : ((rows.drop 100).take 100).length = 100 := by simp [h]
    have hd2 : (((rows.drop 100).drop 100).take 100).length = 50 := by simp [h]
    rw [runLoop_cont submit 100 rows 0 (by omega) (hs 0) (by omega),
        runLoop_cont submit 100 (rows.drop 100) 1 (by omega) (hs 1) (by simp [h]),
        runLoop_last submit 100 ((rows.drop 100).drop 100) 2 (by omega) (hs 2)
          (by simp [h])]
    simp [h1, hd1, hd2, h]
  refine ⟨⟨hloop, ?_, by decide⟩, ?_⟩
  · simp [run_benchmark, hloop]
  · intro rows2 submit2
    refine ⟨⟨runLoop_stop submit2 0 rows2 0 (by simp), ?_⟩, ?_⟩
    · simp [run_benchmark, runLoop_stop submit2 0 rows2 0 (by simp)]
    · intro b
      refine ⟨runLoop_stop submit2 b [] 0 (by simp), ?_⟩
      simp [run_benchmark, runLoop_stop submit2 b [] 0 (by simp)]

/-- Witness for C1 at a concrete source of 250 rows with an always-succeeding
submission oracle. -/
theorem claim_C1_batching_counts_witness :
    (runLoop (fun _ => (none : Option Unit)) 100 (List.replicate 250 (0 : Nat)) 0
        = ([100, 100, 50], none) ∧
      run_benchmark (fun _ => (none : Option Unit)) 100 (List.replicate 250 (0 : Nat))
        = Except.ok [100, 100, 50] ∧
      ([100, 100, 50] : List Nat).sum = 250) ∧
    (∀ (rows2 : List Nat) (submit2 : Nat → Option Unit),
      (runLoop submit2 0 rows2 0 = ([], none) ∧
        run_benchmark submit2 0 rows2 = Except.ok []) ∧
      ∀ b : Nat, runLoop submit2 b ([] : List Nat) 0 = ([], none) ∧
        run_benchmark submit2 b ([] : List Nat) = Except.ok []) :=
  claim_C1_batching_counts (List.replicate 250 0) (fun _ => none)
    (List.length_replicate 250 0) (fun _ => rfl)

/-- C2: when the submission of batch 2 (of the 3 batches a 250-row source
with batch_size = 100 would produce) fails, the loop halts: only batches 1
and 2 are ever filled and submitted, batch 3 is not, and the run's terminal
outcome is the error carrying the batch-2 submission failure, not success. -/
theorem claim_C2_submit_failure_halts {α ε : Type} (rows : List α)
    (submit : Nat → Option ε) (e : ε) (h : rows.length = 250)
    (h0 : submit 0 = none) (h1 : submit 1 = some e) :
    runLoop submit 100 rows 0 = ([100, 100], some e) ∧
    run_benchmark submit 100 rows = Except.error e := by
  have hloop : runLoop submit 100 rows 0 = ([100, 100], some e) := by
    have ht : (rows.take 100).length = 100 := by simp [h]
    have hd1 : ((rows.drop 100).take 100).length = 100 := by simp [h]
    rw [runLoop_cont submit 100 rows 0 (by omega) h0 (by omega),
        runLoop_err submit 100 (rows.drop 100) 1 e (by simp [h]) h1]
    simp [ht, hd1]
  exact ⟨hloop, by simp [run_benchmark, hloop]⟩

/-- Witness for C2 at a concrete 250-row source whose second submission
fails. -/
theorem claim_C2_submit_failure_halts_witness :
    runLoop (fun k => if k = 1 then some () else none) 100
        (List.replicate 250 (0 : Nat)) 0 = ([100, 100], some ()) ∧
    run_benchmark (fun k => if k = 1 then some () else none) 100
        (List.replicate 250 (0 : Nat)) = Except.error () :=
  claim_C2_submit_failure_halts (List.replicate 250 0)
    (fun k => if k = 1 then some () else none) () (List.length_replicate 250 0) rfl rfl

/-- C3: for every row and in-range index whose slot holds a non-null value
whose case is not the one a getter requests, the getter in a
debug/development configuration panics carrying the index, the expected type
name and the actual stored case, while in a release/production configuration
the same call returns no value and never panics — stated for every typed
getter family. -/
theorem claim_C3_type_mismatch_policy (r : Row) (i : Nat) (v : Value)
    (h : r.values[i]? = some v) (hnull : v ≠ Value.Null) :
    (v.isBooleanCase = false →
      Row.get_bool true r i = GetResult.panicWith i "boolean" v ∧
      Row.get_bool false r i = GetResult.ok none) ∧
    (v.isInt8Case = false →
      Row.get_i8 true r i = GetResult.panicWith i "i8" v ∧
      Row.get_i8 false r i = GetResult.ok none) ∧
    (v.isInt16Case = false →
      Row.get_i16 true r i = GetResult.panicWith i "i16" v ∧
      Row.get_i16 false r i = GetResult.ok none) ∧
    (v.isInt32Case = false →
      Row.get_i32 true r i = GetResult.panicWith i "i32" v ∧
      Row.get_i32 false r i = GetResult.ok none) ∧
    (v.isInt64Case = false →
      Row.get_i64 true r i = GetResult.panicWith i "i64" v ∧
      Row.get_i64 false r i = GetResult.ok none) ∧
    (v.isUint8Case = false →
      Row.get_u8 true r i = GetResult.panicWith i "u8" v ∧
      Row.get_u8 false r i = GetResult.ok none) ∧
    (v.isUint16Case = false →
      Row.get_u16 true r i = GetResult.panicWith i "u16" v ∧
      Row.get_u16 false r i = GetResult.ok none) ∧
    (v.isUint32Case = false →
      Row.get_u32 true r i = GetResult.panicWith i "u32" v ∧
      Row.get_u32 false r i = GetResult.ok none) ∧
    (v.isUint64Case = false →
      Row.get_u64 true r i = GetResult.panicWith i "u64" v ∧
      Row.get_u64 false r i = GetResult.ok none) ∧
    (v.isFloat32Case = false →
      Row.get_f32 true r i = GetResult.panicWith i "f32" v ∧
      Row.get_f32 false r i = GetResult.ok none) ∧
    (v.isFloat64Case = false →
      Row.get_f64 true r i = GetResult.panicWith i "f64" v ∧
      Row.get_f64 false r i = GetResult.ok none) ∧
    (v.isBinaryViewCase = false →
      Row.get_binary true r i = GetResult.panicWith i "binary" v ∧
      Row.get_binary false r i = GetResult.ok none) ∧
    (v.isStringCase = false →
      Row.get_string true r i = GetResult.panicWith i "string" v ∧
      Row.get_string false r i = GetResult.ok none) ∧
    (v.isDateCase = false →
      Row.get_date true r i = GetResult.panicWith i "date" v ∧
      Row.get_date false r i = GetResult.ok none) ∧
    (v.isDatetimeCase = false →
      Row.get_datetime true r i = GetResult.panicWith i "datetime" v ∧
      Row.get_datetime false r i = GetResult.ok none) ∧
    (v.isTimestampCase = false →
      Row.get_timestamp true r i = GetResult.panicWith i "timestamp" v ∧
      Row.get_timestamp false r i = GetResult.ok none) ∧
    (v.isTime32Case = false →
      Row.get_time32 true r i = GetResult.panicWith i "time32" v ∧
      Row.get_time32 false r i = GetResult.ok none) ∧
    (v.isTime64Case = false →
      Row.get_time64 true r i = GetResult.panicWith i "time64" v ∧
      Row.get_time64 false r i = GetResult.ok none) ∧
    (v.isDecimal128Case = false →
      Row.get_decimal128 true r i = GetResult.panicWith i "decimal128" v ∧
      Row.get_decimal128 false r i = GetResult.ok none) := by
  cases v <;>
    simp_all [Row.get_bool, Row.get_i8, Row.get_i16, Row.get_i32, Row.get_i64, Row.get_u8, Row.get_u16, Row.get_u32, Row.get_u64, Row.get_f32, Row.get_f64, Row.get_binary, Row.get_string, Row.get_date, Row.get_datetime, Row.get_timestamp, Row.get_time32, Row.get_time64, Row.get_decimal128,
      Value.isBooleanCase, Value.isInt8Case, Value.isInt16Case, Value.isInt32Case, Value.isInt64Case, Value.isUint8Case, Value.isUint16Case, Value.isUint32Case, Value.isUint64Case, Value.isFloat32Case, Value.isFloat64Case, Value.isBinaryViewCase, Value.isStringCase, Value.isDateCase, Value.isDatetimeCase, Value.isTimestampCase, Value.isTime32Case, Value.isTime64Case, Value.isDecimal128Case,
      handle_type_mismatch]

/-- Witness for C3 at the concrete row of the source's own regression test:
a single slot holding Int32 42. -/
theorem claim_C3_type_mismatch_policy_witness :
    Row.get_bool true ⟨[Value.Int32 42]⟩ 0 =
        GetResult.panicWith 0 "boolean" (Value.Int32 42) ∧
    Row.get_bool false ⟨[Value.Int32 42]⟩ 0 = GetResult.ok none :=
  (claim_C3_type_mismatch_policy ⟨[Value.Int32 42]⟩ 0 (Value.Int32 42)
    rfl (by decide)).1 rfl

/-- C8: for every row and in-range index holding any of the four timestamp
cases, get_timestamp returns the raw stored integer unchanged (no resolution
conversion); a non-timestamp, non-null stored case is the type-mismatch
condition (panic in debug, no value in release). -/
theorem claim_C8_timestamp_family (d : Bool) (r : Row) (i : Nat) (v : Value)
    (h : r.values[i]? = some v) :
    (∀ t, v = Value.TimestampSecond t →
      Row.get_timestamp d r i = GetResult.ok (some t)) ∧
    (∀ t, v = Value.TimestampMillisecond t →
      Row.get_timestamp d r i = GetResult.ok (some t)) ∧
    (∀ t, v = Value.TimestampMicrosecond t →
      Row.get_timestamp d r i = GetResult.ok (some t)) ∧
    (∀ t, v = Value.TimestampNanosecond t →
      Row.get_timestamp d r i = GetResult.ok (some t)) ∧
    (v.isTimestampCase = false → v ≠ Value.Null →
      Row.get_timestamp true r i = GetResult.panicWith i "timestamp" v ∧
      Row.get_timestamp false r i = GetResult.ok none) := by
  cases v <;>
    simp_all [Row.get_timestamp, Value.isTimestampCase, handle_type_mismatch]

/-- Witness for C8 at a concrete nanosecond-resolution slot: the raw integer
comes back unchanged. -/
theorem claim_C8_timestamp_family_witness :
    Row.get_timestamp true ⟨[Value.TimestampNanosecond 987654321]⟩ 0 =
      GetResult.ok (some 987654321) :=
  ((claim_C8_timestamp_family true ⟨[Value.TimestampNanosecond 987654321]⟩ 0
    (Value.TimestampNanosecond 987654321) rfl).2.2.2.1) 987654321 rfl

/-- C10: for every row and in-range index holding a stored Json value, every
typed getter — get_string and get_binary included — treats the Json case as
a type mismatch (panic in a debug configuration, no value in a release
configuration); the byte-array view applies only to the String case. -/
theorem claim_C10_json_is_mismatch (r : Row) (i : Nat) (s : String)
    (h : r.values[i]? = some (Value.Json s)) :
    (Row.get_bool true r i = GetResult.panicWith i "boolean" (Value.Json s) ∧
      Row.get_bool false r i = GetResult.ok none) ∧
    (Row.get_i8 true r i = GetResult.panicWith i "i8" (Value.Json s) ∧
      Row.get_i8 false r i = GetResult.ok none) ∧
    (Row.get_i16 true r i = GetResult.panicWith i "i16" (Value.Json s) ∧
      Row.get_i16 false r i = GetResult.ok none) ∧
    (Row.get_i32 true r i = GetResult.panicWith i "i32" (Value.Json s) ∧
      Row.get_i32 false r i = GetResult.ok none) ∧
    (Row.get_i64 true r i = GetResult.panicWith i "i64" (Value.Json s) ∧
      Row.get_i64 false r i = GetResult.ok none) ∧
    (Row.get_u8 true r i = GetResult.panicWith i "u8" (Value.Json s) ∧
      Row.get_u8 false r i = GetResult.ok none) ∧
    (Row.get_u16 true r i = GetResult.panicWith i "u16" (Value.Json s) ∧
      Row.get_u16 false r i = GetResult.ok none) ∧
    (Row.get_u32 true r i = GetResult.panicWith i "u32" (Value.Json s) ∧
      Row.get_u32 false r i = GetResult.ok none) ∧
    (Row.get_u64 true r i = GetResult.panicWith i "u64" (Value.Json s) ∧
      Row.get_u64 false r i = GetResult.ok none) ∧
    (Row.get_f32 true r i = GetResult.panicWith i "f32" (Value.Json s) ∧
      Row.get_f32 false r i = GetResult.ok none) ∧
    (Row.get_f64 true r i = GetResult.panicWith i "f64" (Value.Json s) ∧
      Row.get_f64 false r i = GetResult.ok none) ∧
    (Row.get_binary true r i = GetResult.panicWith i "binary" (Value.Json s) ∧
      Row.get_binary false r i = GetResult.ok none) ∧
    (Row.get_string true r i = GetResult.panicWith i "string" (Value.Json s) ∧
      Row.get_string false r i = GetResult.ok none) ∧
    (Row.get_date true r i = GetResult.panicWith i "date" (Value.Json s) ∧
      Row.get_date false r i = GetResult.ok none) ∧
    (Row.get_datetime true r i = GetResult.panicWith i "datetime" (Value.Json s) ∧
      Row.get_datetime false r i = GetResult.ok none) ∧
    (Row.get_timestamp true r i = GetResult.panicWith i "timestamp" (Value.Json s) ∧
      Row.get_timestamp false r i = GetResult.ok none) ∧
    (Row.get_time32 true r i = GetResult.panicWith i "time32" (Value.Json s) ∧
      Row.get_time32 false r i = GetResult.ok none) ∧
    (Row.get_time64 true r i = GetResult.panicWith i "time64" (Value.Json s) ∧
      Row.get_time64 false r i = GetResult.ok none) ∧
    (Row.get_decimal128 true r i = GetResult.panicWith i "decimal128" (Value.Json s) ∧
      Row.get_decimal128 false r i = GetResult.ok none) := by
  simp [Row.get_bool, Row.get_i8, Row.get_i16, Row.get_i32, Row.get_i64, Row.get_u8, Row.get_u16, Row.get_u32, Row.get_u64, Row.get_f32, Row.get_f64, Row.get_binary, Row.get_string, Row.get_date, Row.get_datetime, Row.get_timestamp, Row.get_time32, Row.get_time64, Row.get_decimal128,
    handle_type_mismatch, h]

/-- Witness for C10 at a concrete row holding a Json payload. -/
theorem claim_C10_json_is_mismatch_witness :
    Row.get_string true ⟨[Value.Json "x"]⟩ 0 =
        GetResult.panicWith 0 "string" (Value.Json "x") ∧
    Row.get_string false ⟨[Value.Json "x"]⟩ 0 = GetResult.ok none :=
  (claim_C10_json_is_mismatch ⟨[Value.Json "x"]⟩ 0 "x" rfl).2.2.2.2.2.2.2.2.2.2.2.2.1

/-- C5: for every row and in-range index holding a non-null value of the
requested type, take_string (respectively take_binary) returns that payload
and leaves the slot holding the null case, so an immediately following
second take at the same index returns no value; slots at all other indices
are unchanged. -/
theorem claim_C5_take_leaves_null (d : Bool) (r : Row) (i : Nat) :
    (∀ s, r.values[i]? = some (Value.String s) →
      (Row.take_string d r i).1 = GetResult.ok (some s) ∧
      (Row.take_string d r i).2.values[i]? = some Value.Null ∧
      (∀ j, j ≠ i → (Row.take_string d r i).2.values[j]? = r.values[j]?) ∧
      (Row.take_string d (Row.take_string d r i).2 i).1 = GetResult.ok none) ∧
    (∀ b, r.values[i]? = some (Value.Binary b) →
      (Row.take_binary d r i).1 = GetResult.ok (some b) ∧
      (Row.take_binary d r i).2.values[i]? = some Value.Null ∧
      (∀ j, j ≠ i → (Row.take_binary d r i).2.values[j]? = r.values[j]?) ∧
      (Row.take_binary d (Row.take_binary d r i).2 i).1 = GetResult.ok none) := by
  constructor
  · intro s hs
    have hlt : i < r.values.length := by
      by_contra hc
      rw [List.getElem?_eq_none (by omega)] at hs
      exact Option.noConfusion hs
    have hget : r.values[i] = Value.String s := by
      have := List.getElem?_eq_getElem hlt
      rw [hs] at this
      exact (Option.some_inj.mp this).symm
    refine ⟨?_, ?_, ?_, ?_⟩
    · simp [Row.take_string, Row.take_string_unchecked, hlt, hget]
    · simp [Row.take_string, Row.take_string_unchecked, hlt, hget,
        List.getElem?_set]
    · intro j hj
      simp [Row.take_string, Row.take_string_unchecked, hlt, hget,
        List.getElem?_set, hj.symm]
    · have htake : (Row.take_string d r i).2 = ⟨r.values.set i Value.Null⟩ := by
        simp [Row.take_string, Row.take_string_unchecked, hlt, hget]
      rw [htake]
      have hlt2 : i < (r.values.set i Value.Null).length := by simpa using hlt
      have hget2 : (r.values.set i Value.Null)[i] = Value.Null := by
        rw [List.getElem_set_self]
      simp [Row.take_string, Row.take_string_unchecked, hlt2, hget2]
  · intro b hb
    have hlt : i < r.values.length := by
      by_contra hc
      rw [List.getElem?_eq_none (by omega)] at hb
      exact Option.noConfusion hb
    have hget : r.values[i] = Value.Binary b := by
      have := List.getElem?_eq_getElem hlt
      rw [hb] at this
      exact (Option.some_inj.mp this).symm
    refine ⟨?_, ?_, ?_, ?_⟩
    · simp [Row.take_binary, Row.take_binary_unchecked, hlt, hget]
    · simp [Row.take_binary, Row.take_binary_unchecked, hlt, hget,
        List.getElem?_set]
    · intro j hj
      simp [Row.take_binary, Row.take_binary_unchecked, hlt, hget,
        List.getElem?_set, hj.symm]
    · have htake : (Row.take_binary d r i).2 = ⟨r.values.set i Value.Null⟩ := by
        simp [Row.take_binary, Row.take_binary_unchecked, hlt, hget]
      rw [htake]
      have hlt2 : i < (r.values.set i Value.Null).length := by simpa using hlt
      have hget2 : (r.values.set i Value.Null)[i] = Value.Null := by
        rw [List.getElem_set_self]
      simp [Row.take_binary, Row.take_binary_unchecked, hlt2, hget2]

/-- Witness for C5 at a concrete two-slot row: the string payload comes out,
the slot goes null, the other slot is untouched, and a second take finds
nothing. -/
theorem claim_C5_take_leaves_null_witness :
    (Row.take_string true ⟨[Value.String "hi", Value.Boolean true]⟩ 0).1 =
        GetResult.ok (some "hi") ∧
    (Row.take_string true ⟨[Value.String "hi", Value.Boolean true]⟩ 0).2.values[0]? =
        some Value.Null ∧
    (∀ j, j ≠ 0 →
      (Row.take_string true ⟨[Value.String "hi", Value.Boolean true]⟩ 0).2.values[j]? =
        ([Value.String "hi", Value.Boolean true] : List Value)[j]?) ∧
    (Row.take_string true
        (Row.take_string true ⟨[Value.String "hi", Value.Boolean true]⟩ 0).2 0).1 =
      GetResult.ok none :=
  (claim_C5_take_leaves_null true ⟨[Value.String "hi", Value.Boolean true]⟩ 0).1
    "hi" rfl

/-- C6: for every row and in-range index holding a stored text value,
get_binary returns its UTF-8 byte sequence byte-for-byte, and take_binary
returns the same bytes while leaving the slot null — the stored text case is
viewed as a byte array, not treated as a type mismatch, in both build
configurations. -/
theorem claim_C6_binary_view_of_string (d : Bool) (r : Row) (i : Nat)
    (s : String) (h : r.values[i]? = some (Value.String s)) :
    Row.get_binary d r i = GetResult.ok (some (strBytes s)) ∧
    (Row.take_binary d r i).1 = GetResult.ok (some (strBytes s)) ∧
    (Row.take_binary d r i).2.values[i]? = some Value.Null := by
  have hlt : i < r.values.length := by
    by_contra hc
    rw [List.getElem?_eq_none (by omega)] at h
    exact Option.noConfusion h
  have hget : r.values[i] = Value.String s := by
    have := List.getElem?_eq_getElem hlt
    rw [h] at this
    exact (Option.some_inj.mp this).symm
  refine ⟨?_, ?_, ?_⟩
  · simp [Row.get_binary, h]
  · simp [Row.take_binary, Row.take_binary_unchecked, hlt, hget]
  · simp [Row.take_binary, Row.take_binary_unchecked, hlt, hget,
      List.getElem?_set]

/-- Witness for C6 at a concrete row holding the text "ab": binary access
returns its two UTF-8 bytes. -/
theorem claim_C6_binary_view_of_string_witness :
    Row.get_binary false ⟨[Value.String "ab"]⟩ 0 =
        GetResult.ok (some (strBytes "ab")) ∧
    (Row.take_binary false ⟨[Value.String "ab"]⟩ 0).1 =
        GetResult.ok (some (strBytes "ab")) ∧
    (Row.take_binary false ⟨[Value.String "ab"]⟩ 0).2.values[0]? =
        some Value.Null :=
  claim_C6_binary_view_of_string false ⟨[Value.String "ab"]⟩ 0 "ab" rfl

/-- The first component of a pull is the row at the provider's current
cursor position. -/
theorem generate_row_fst (p : LogTableDataProvider) :
    p.generate_row.1 = rowAt p p.current_row := rfl

/-- A pull advances the shared cursor exactly when a row was produced, and
changes nothing else. -/
theorem generate_row_snd (p : LogTableDataProvider) :
    p.generate_row.2 = if p.current_row < p.row_count
      then { p with current_row := p.current_row + 1 } else p := by
  rw [LogTableDataProvider.generate_row]
  by_cases hc : p.current_row ≥ p.row_count
  · simp [hc, Nat.not_lt.mpr hc]
  · simp [hc, Nat.lt_of_not_le hc]

/-- The first component of an api pull is the api row at the provider's
current cursor position. -/
theorem generate_api_row_fst (p : LogTableDataProvider) :
    p.generate_api_row.1 = apiRowAt p p.current_row := rfl

/-- An api pull advances the shared cursor exactly when a row was produced,
and changes nothing else. -/
theorem generate_api_row_snd (p : LogTableDataProvider) :
    p.generate_api_row.2 = if p.current_row < p.row_count
      then { p with current_row := p.current_row + 1 } else p := by
  rw [LogTableDataProvider.generate_api_row]
  by_cases hc : p.current_row ≥ p.row_count
  · simp [hc, Nat.not_lt.mpr hc]
  · simp [hc, Nat.lt_of_not_le hc]

/-- The per-position row depends only on the position and the immutable
pools, not on the provider's cursor. -/
theorem rowAt_mk (p : LogTableDataProvider) (c i : Nat) :
    rowAt { p with current_row := c } i = rowAt p i := rfl

/-- The per-position api row depends only on the position and the immutable
pools, not on the provider's cursor. -/
theorem apiRowAt_mk (p : LogTableDataProvider) (c i : Nat) :
    apiRowAt { p with current_row := c } i = apiRowAt p i := rfl

/-- A position at or past the declared row count produces no row. -/
theorem rowAt_none (p : LogTableDataProvider) (i : Nat)
    (h : p.row_count ≤ i) : rowAt p i = none := by
  simp [rowAt, LogTableDataProvider.generate_row, h]

/-- A position at or past the declared row count produces no api row. -/
theorem apiRowAt_none (p : LogTableDataProvider) (i : Nat)
    (h : p.row_count ≤ i) : apiRowAt p i = none := by
  simp [apiRowAt, LogTableDataProvider.generate_api_row, h]

/-- A position below the declared row count produces a row. -/
theorem rowAt_isSome (p : LogTableDataProvider) (i : Nat) :
    (rowAt p i).isSome = decide (i < p.row_count) := by
  by_cases hc : i < p.row_count
  · rw [rowAt, LogTableDataProvider.generate_row]
    simp [Nat.not_le.mpr hc, hc]
  · simp [rowAt_none p i (Nat.le_of_not_lt hc), hc]

/-- Characterization of one api-iterator pull: it yields the api row at the
iterator's own cursor, advances that cursor exactly when a row was produced,
and returns the provider in exactly its original state (the shared cursor is
saved and restored). -/
theorem ApiRowIterator.next_eq (it : ApiRowIterator) (p : LogTableDataProvider) :
    it.next p = (apiRowAt p it.current_row,
      ⟨if it.current_row < p.row_count then it.current_row + 1 else it.current_row⟩,
      p) := by
  show (_, (⟨(LogTableDataProvider.generate_api_row
      { p with current_row := it.current_row }).2.current_row⟩ : ApiRowIterator), _) = _
  rw [generate_api_row_snd]
  by_cases hc : it.current_row < p.row_count
  · simp only [hc]
    rfl
  · simp only [hc]
    rfl

/-- Exclusive driving of the structured-row iterator: the j-th pull yields
the row at position (initial cursor + j). -/
theorem driveRows_outputs (n : Nat) : ∀ p : LogTableDataProvider,
    (driveRows p n).1 =
      (List.range n).map (fun j => rowAt p (p.current_row + j)) := by
  induction n with
  | zero => intro p; simp [driveRows]
  | succ n ih =>
    intro p
    rw [List.range_succ_eq_map]
    show (LogRowIterator.next p).1 :: (driveRows (LogRowIterator.next p).2 n).1 = _
    rw [LogRowIterator.next, generate_row_fst]
    by_cases hc : p.current_row < p.row_count
    · have h2 : p.generate_row.2 = { p with current_row := p.current_row + 1 } := by
        rw [generate_row_snd]; simp [hc]
      rw [h2, ih]
      simp only [List.map_cons, List.map_map, Nat.add_zero]
      refine congrArg (rowAt p p.current_row :: ·) ?_
      refine List.map_congr_left (fun j _ => ?_)
      simp only [Function.comp, rowAt_mk]
      refine congrArg (rowAt p) (by omega)
    · have hle : p.row_count ≤ p.current_row := Nat.le_of_not_lt hc
      have h2 : p.generate_row.2 = p := by rw [generate_row_snd]; simp [hc]
      rw [h2, ih]
      simp only [List.map_cons, List.map_map, Nat.add_zero]
      refine congrArg (rowAt p p.current_row :: ·) ?_
      refine List.map_congr_left (fun j _ => ?_)
      simp only [Function.comp]
      rw [rowAt_none p _ (by omega), rowAt_none p _ (by omega)]

/-- Exclusive driving of the api-row iterator: the j-th pull yields the api
row at position (initial iterator cursor + j), and the provider's shared
cursor is untouched throughout. -/
theorem driveApi_outputs (n : Nat) : ∀ (it : ApiRowIterator) (p : LogTableDataProvider),
    (driveApi it p n).1 =
      (List.range n).map (fun j => apiRowAt p (it.current_row + j)) ∧
    (driveApi it p n).2.2 = p := by
  induction n with
  | zero => intro it p; simp [driveApi]
  | succ n ih =>
    intro it p
    rw [List.range_succ_eq_map]
    show ((it.next p).1 :: (driveApi (it.next p).2.1 (it.next p).2.2 n).1 = _) ∧
      ((driveApi (it.next p).2.1 (it.next p).2.2 n).2.2 = p)
    rw [ApiRowIterator.next_eq]
    by_cases hc : it.current_row < p.row_count
    · simp only [hc, if_pos]
      obtain ⟨ih1, ih2⟩ := ih ⟨it.current_row + 1⟩ p
      refine ⟨?_, ih2⟩
      rw [ih1]
      simp only [List.map_cons, List.map_map, Nat.add_zero]
      refine congrArg (apiRowAt p it.current_row :: ·) ?_
      refine List.map_congr_left (fun j _ => ?_)
      simp only [Function.comp]
      refine congrArg (apiRowAt p) (by omega)
    · have hle : p.row_count ≤ it.current_row := Nat.le_of_not_lt hc
      simp only [hc, if_neg, if_false]
      obtain ⟨ih1, ih2⟩ := ih ⟨it.current_row⟩ p
      refine ⟨?_, ih2⟩
      rw [ih1]
      simp only [List.map_cons, List.map_map, Nat.add_zero]
      refine congrArg (apiRowAt p it.current_row :: ·) ?_
      refine List.map_congr_left (fun j _ => ?_)
      simp only [Function.comp]
      rw [apiRowAt_none p _ (by omega), apiRowAt_none p _ (by omega)]

/-- Strict alternation (structured pull, then api pull, repeated): each
iterator sees exactly the sequence it would see if driven exclusively — the
structured pulls walk the shared cursor, the api pulls walk the iterator's
own cursor, and the save/restore discipline keeps them independent. -/
theorem driveAlt_outputs (n : Nat) : ∀ (p : LogTableDataProvider) (it : ApiRowIterator),
    (driveAlt p it n).1 =
      (List.range n).map (fun j => rowAt p (p.current_row + j)) ∧
    (driveAlt p it n).2.1 =
      (List.range n).map (fun j => apiRowAt p (it.current_row + j)) := by
  induction n with
  | zero => intro p it; simp [driveAlt]
  | succ n ih =>
    intro p it
    rw [List.range_succ_eq_map]
    show ((LogRowIterator.next p).1 :: _ = _) ∧ ((it.next (LogRowIterator.next p).2).1 :: _ = _)
    rw [LogRowIterator.next, generate_row_fst, generate_row_snd]
    by_cases hcA : p.current_row < p.row_count
    · simp only [hcA, if_pos]
      rw [ApiRowIterator.next_eq]
      show (_ :: (driveAlt _ _ n).1 = _) ∧ (_ :: (driveAlt _ _ n).2.1 = _)
      obtain ⟨ih1, ih2⟩ := ih { p with current_row := p.current_row + 1 }
        ⟨if it.current_row < ({ p with current_row := p.current_row + 1 } : LogTableDataProvider).row_count
          then it.current_row + 1 else it.current_row⟩
      constructor
      · rw [ih1]
        simp only [List.map_cons, List.map_map, Nat.add_zero, rowAt_mk]
        refine congrArg (rowAt p p.current_row :: ·) ?_
        refine List.map_congr_left (fun j _ => ?_)
        simp only [Function.comp, rowAt_mk]
        refine congrArg (rowAt p) (by omega)
      · rw [ih2]
        simp only [List.map_cons, List.map_map, Nat.add_zero, apiRowAt_mk]
        by_cases hcB : it.current_row < p.row_count
        · simp only [hcB, if_pos]
          refine congrArg (apiRowAt p it.current_row :: ·) ?_
          refine List.map_congr_left (fun j _ => ?_)
          simp only [Function.comp, apiRowAt_mk]
          refine congrArg (apiRowAt p) (by omega)
        · have hle : p.row_count ≤ it.current_row := Nat.le_of_not_lt hcB
          simp only [hcB, if_neg, if_false]
          refine congrArg (apiRowAt p it.current_row :: ·) ?_
          refine List.map_congr_left (fun j _ => ?_)
          simp only [Function.comp, apiRowAt_mk]
          rw [apiRowAt_none p _ (by omega), apiRowAt_none p _ (by omega)]
    · have hleA : p.row_count ≤ p.current_row := Nat.le_of_not_lt hcA
      simp only [hcA, if_neg, if_false]
      rw [ApiRowIterator.next_eq]
      show (_ :: (driveAlt _ _ n).1 = _) ∧ (_ :: (driveAlt _ _ n).2.1 = _)
      obtain ⟨ih1, ih2⟩ := ih p
        ⟨if it.current_row < p.row_count then it.current_row + 1 else it.current_row⟩
      constructor
      · rw [ih1]
        simp only [List.map_cons, List.map_map, Nat.add_zero]
        refine congrArg (rowAt p p.current_row :: ·) ?_
        refine List.map_congr_left (fun j _ => ?_)
        simp only [Function.comp]
        rw [rowAt_none p _ (by omega), rowAt_none p _ (by omega)]
      · rw [ih2]
        simp only [List.map_cons, List.map_map, Nat.add_zero]
        by_cases hcB : it.current_row < p.row_count
        · simp only [hcB, if_pos]
          refine congrArg (apiRowAt p it.current_row :: ·) ?_
          refine List.map_congr_left (fun j _ => ?_)
          simp only [Function.comp]
          refine congrArg (apiRowAt p) (by omega)
        · have hle : p.row_count ≤ it.current_row := Nat.le_of_not_lt hcB
          simp only [hcB, if_neg, if_false]
          refine congrArg (apiRowAt p it.current_row :: ·) ?_
          refine List.map_congr_left (fun j _ => ?_)
          simp only [Function.comp]
          rw [apiRowAt_none p _ (by omega), apiRowAt_none p _ (by omega)]

/-- C4: a provider constructed with table_row_count = K (fresh cursor 0)
yields from its structured-row sequence exactly the row at position j on the
j-th pull — a produced row for every j < K and nothing on every subsequent
pull — and driving the structured-row iterator and the api-row iterator of
the same provider in strict alternation yields from each iterator exactly
the sequence it would yield if driven exclusively, because each api pull
saves and restores the provider's shared cursor. -/
theorem claim_C4_row_source_cursors (p : LogTableDataProvider)
    (it : ApiRowIterator) (n : Nat) (hp : p.current_row = 0)
    (hit : it.current_row = 0) :
    ((driveRows p n).1 = (List.range n).map (fun j => rowAt p j) ∧
      ∀ j : Nat, (rowAt p j).isSome = decide (j < p.row_count)) ∧
    ((driveAlt p it n).1 = (driveRows p n).1 ∧
      (driveAlt p it n).2.1 = (driveApi it p n).1) := by
  have hA := driveRows_outputs n p
  have hB := (driveApi_outputs n it p).1
  have hAlt := driveAlt_outputs n p it
  rw [hp] at hA
  rw [hp, hit] at hAlt
  rw [hit] at hB
  simp only [Nat.zero_add] at hA hB hAlt
  exact ⟨⟨hA, fun j => rowAt_isSome p j⟩,
    by rw [hAlt.1, hA], by rw [hAlt.2, hB]⟩

/-- Witness for C4 at a concrete fresh provider with row_count = 2 and
singleton pools, alternated for 3 rounds (so exhaustion is exercised). -/
theorem claim_C4_row_source_cursors_witness :
    (driveAlt (⟨"t", 2, 0, 0, ["h"], ["hn"], ["s"], ["sn"], ["c"], ["cn"], ["q"], ["qn"], ["k"], ["kn"], ["tr"], ["sp"], ["u"], ["se"], ["rq"], ["lu"], [("l", "m")]⟩ : LogTableDataProvider) ⟨0⟩ 3).1 = (driveRows (⟨"t", 2, 0, 0, ["h"], ["hn"], ["s"], ["sn"], ["c"], ["cn"], ["q"], ["qn"], ["k"], ["kn"], ["tr"], ["sp"], ["u"], ["se"], ["rq"], ["lu"], [("l", "m")]⟩ : LogTableDataProvider) 3).1 ∧
    (driveAlt (⟨"t", 2, 0, 0, ["h"], ["hn"], ["s"], ["sn"], ["c"], ["cn"], ["q"], ["qn"], ["k"], ["kn"], ["tr"], ["sp"], ["u"], ["se"], ["rq"], ["lu"], [("l", "m")]⟩ : LogTableDataProvider) ⟨0⟩ 3).2.1 = (driveApi ⟨0⟩ (⟨"t", 2, 0, 0, ["h"], ["hn"], ["s"], ["sn"], ["c"], ["cn"], ["q"], ["qn"], ["k"], ["kn"], ["tr"], ["sp"], ["u"], ["se"], ["rq"], ["lu"], [("l", "m")]⟩ : LogTableDataProvider) 3).1 :=
  (claim_C4_row_source_cursors (⟨"t", 2, 0, 0, ["h"], ["hn"], ["s"], ["sn"], ["c"], ["cn"], ["q"], ["qn"], ["k"], ["kn"], ["tr"], ["sp"], ["u"], ["se"], ["rq"], ["lu"], [("l", "m")]⟩ : LogTableDataProvider) ⟨0⟩ 3 rfl rfl).2

end Greptime
